import Mathlib

/-!
Shallow embedding of `src/nba/fetcher/video_fetcher.py` (module `lebron_bot`).

The Python module defines:
* `ContextMeasure` — a closed `str` enum of statistical event categories;
* `VideoRequestParams` — a dataclass whose `build()` produces the query
  parameter dict sent to the NBA stats API;
* `VideoRequestConfig` — request configuration whose `__post_init__`
  creates the cache directory and validates `CACHE_DURATION`;
* `VideoFetcher.get_game_videos_raw` — an `@lru_cache(maxsize=100)`
  method that builds params, a cache key and a cache file path, issues a
  cache-aware GET through `fetch_data`, and converts any exception into a
  `None` return (after logging).

Python values appearing in the parameter dict are either `int` or `str`,
modelled by `PyVal`.  Python's `str(int)` / `int(str)` conversions are
modelled by `pyStrOfInt` / `pyIntOfString` (plain decimal with optional
sign, which is the fragment the module exercises).  Machine integers do
not overflow here (Python ints are unbounded), so `Int` is used directly.
-/

namespace NbaVideo

/-- The `ContextMeasure(str, Enum)` from the source. -/
inductive ContextMeasure where
  | FG3M | FG3A | FGM | FGA | OREB | DREB | REB | AST | STL | BLK | TOV
deriving DecidableEq, Repr

/-- The `.value` of each enum member (the member's string payload). -/
def ContextMeasure.value : ContextMeasure → String
  | .FG3M => "FG3M"
  | .FG3A => "FG3A"
  | .FGM => "FGM"
  | .FGA => "FGA"
  | .OREB => "OREB"
  | .DREB => "DREB"
  | .REB => "REB"
  | .AST => "AST"
  | .STL => "STL"
  | .BLK => "BLK"
  | .TOV => "TOV"

/-- A Python value stored in the query-parameter dict: `int` or `str`. -/
inductive PyVal where
  | int (n : Int)
  | str (s : String)
deriving DecidableEq, Repr

/-- Whether a `PyVal` is an integer value. -/
def PyVal.isInt : PyVal → Bool
  | .int _ => true
  | .str _ => false

/-! ### Python decimal conversions `str(int)` and `int(str)` -/

/-- The decimal digit character for `d < 10` (models Python digit rendering). -/
def digitChar (d : Nat) : Char := Char.ofNat (48 + d)

/-- Numeric value of a decimal digit character. -/
def charVal (c : Char) : Nat := c.toNat - 48

/-- Fuel-driven big-endian decimal rendering; `fuel > n` always suffices. -/
def natCharsAux : Nat → Nat → List Char
  | 0, _ => []
  | fuel + 1, n =>
    if n < 10 then [digitChar n]
    else natCharsAux fuel (n / 10) ++ [digitChar (n % 10)]

/-- Big-endian decimal digit list of a natural number, as Python `str` renders it. -/
def natChars (n : Nat) : List Char := natCharsAux (n + 1) n

/-- Python `str` of a natural number. -/
def pyStrOfNat (n : Nat) : String := String.mk (natChars n)

/-- Python `str` of an integer (`str(-5) = "-5"`). -/
def pyStrOfInt : Int → String
  | .ofNat n => pyStrOfNat n
  | .negSucc n => "-" ++ pyStrOfNat (n + 1)

/-- Value of a big-endian decimal digit string. -/
def decValue (cs : List Char) : Nat :=
  cs.foldl (fun a c => a * 10 + charVal c) 0

/-- Parse an unsigned run of decimal digits; `none` if empty or non-digit. -/
def digitsVal (cs : List Char) : Option Nat :=
  if cs ≠ [] ∧ cs.all Char.isDigit then some (decValue cs) else none

/-- Python `int(str)` on a character list: optional sign then digits. -/
def pyIntOfChars (cs : List Char) : Option Int :=
  match cs with
  | [] => none
  | c :: rest =>
    if c = '-' then (digitsVal rest).map (fun n => -(n : Int))
    else if c = '+' then (digitsVal rest).map (fun n => (n : Int))
    else (digitsVal cs).map (fun n => (n : Int))

/-- Python `int(str)` (plain decimal fragment): `none` models `ValueError`. -/
def pyIntOfString (s : String) : Option Int := pyIntOfChars s.toList

/-! ### Round-trip facts about the decimal conversions -/

theorem charVal_digitChar (d : Nat) (h : d < 10) : charVal (digitChar d) = d := by
  interval_cases d <;> rfl

theorem isDigit_digitChar (d : Nat) (h : d < 10) : (digitChar d).isDigit = true := by
  interval_cases d <;> rfl

theorem decValue_append_singleton (cs : List Char) (c : Char) :
    decValue (cs ++ [c]) = decValue cs * 10 + charVal c := by
  simp [decValue, List.foldl_append]

theorem natCharsAux_spec (fuel : Nat) :
    ∀ n, n < fuel →
      (natCharsAux fuel n).all Char.isDigit = true ∧ natCharsAux fuel n ≠ [] ∧
        decValue (natCharsAux fuel n) = n := by
  induction fuel with
  | zero => intro n hn; omega
  | succ fuel ih =>
    intro n hn
    by_cases h : n < 10
    · simp only [natCharsAux, h, if_pos]
      refine ⟨?_, by simp, ?_⟩
      · simp [List.all_cons, isDigit_digitChar n h]
      · simp [decValue, charVal_digitChar n h]
    · have hd : n / 10 < fuel := by
        have hlt : n / 10 < n := Nat.div_lt_self (by omega) (by omega)
        omega
      obtain ⟨hall, hne, hval⟩ := ih (n / 10) hd
      simp only [natCharsAux, h, if_neg, not_false_iff]
      refine ⟨?_, by simp, ?_⟩
      · simp [List.all_append, hall, isDigit_digitChar (n % 10) (Nat.mod_lt _ (by omega))]
      · rw [decValue_append_singleton, hval, charVal_digitChar (n % 10) (Nat.mod_lt _ (by omega))]
        omega

theorem natChars_spec (n : Nat) :
    (natChars n).all Char.isDigit = true ∧ natChars n ≠ [] ∧ decValue (natChars n) = n :=
  natCharsAux_spec (n + 1) n (Nat.lt_succ_self n)

theorem digitsVal_natChars (n : Nat) : digitsVal (natChars n) = some n := by
  obtain ⟨hall, hne, hval⟩ := natChars_spec n
  simp [digitsVal, hne, hval, hall]

theorem natChars_head_isDigit (n : Nat) :
    ∀ c cs, natChars n = c :: cs → c.isDigit = true := by
  intro c cs hcs
  obtain ⟨hall, -, -⟩ := natChars_spec n
  rw [hcs] at hall
  simp [List.all_cons] at hall
  exact hall.1

theorem pyIntOfChars_natChars (n : Nat) : pyIntOfChars (natChars n) = some (n : Int) := by
  obtain ⟨-, hne, -⟩ := natChars_spec n
  cases hcs : natChars n with
  | nil => exact absurd hcs hne
  | cons c cs =>
    have hc : c.isDigit = true := natChars_head_isDigit n c cs hcs
    have hc1 : ¬ c = '-' := by
      intro h; rw [h] at hc; simp [Char.isDigit] at hc
    have hc2 : ¬ c = '+' := by
      intro h; rw [h] at hc; simp [Char.isDigit] at hc
    have := digitsVal_natChars n
    rw [hcs] at this
    simp [pyIntOfChars, hc1, hc2, this]

theorem pyIntOfString_pyStrOfInt (i : Int) : pyIntOfString (pyStrOfInt i) = some i := by
  cases i with
  | ofNat n =>
    simp only [pyStrOfInt, pyStrOfNat, pyIntOfString]
    show pyIntOfChars (natChars n) = some (Int.ofNat n)
    exact pyIntOfChars_natChars n
  | negSucc n =>
    simp only [pyStrOfInt, pyStrOfNat, pyIntOfString]
    have hdata : ("-" ++ String.mk (natChars (n + 1))).toList = '-' :: natChars (n + 1) := by
      show ("-" ++ String.mk (natChars (n + 1))).data = '-' :: natChars (n + 1)
      rw [String.data_append]
      rfl
    rw [hdata]
    simp [pyIntOfChars, digitsVal_natChars (n + 1), Int.negSucc_eq]

theorem pyStrOfInt_ne_empty (i : Int) : pyStrOfInt i ≠ "" := by
  cases i with
  | ofNat n =>
    obtain ⟨-, hne, -⟩ := natChars_spec n
    simp only [pyStrOfInt, pyStrOfNat]
    intro h
    exact hne (congrArg String.data h)
  | negSucc n =>
    simp only [pyStrOfInt, pyStrOfNat]
    intro h
    have := congrArg String.data h
    rw [String.data_append] at this
    simp at this

/-! ### `VideoRequestParams` and its `build()` -/

/-- The `VideoRequestParams` dataclass: `game_id` required, ids optional
strings, enum and season fields with the source's defaults. -/
structure VideoRequestParams where
  game_id : String
  player_id : Option String := none
  team_id : Option String := none
  context_measure : ContextMeasure := ContextMeasure.FGM
  season : String := "2024-25"
  season_type : String := "Regular Season"

/-- The Python expression `int(x) if x else 0` on an optional id string:
`None` and `""` are falsy and give `0`; otherwise `int(x)`, whose
`ValueError` on a non-numeric string is modelled as `Except.error`. -/
def idToInt : Option String → Except String Int
  | none => Except.ok 0
  | some s =>
    if s = "" then Except.ok 0
    else
      match pyIntOfString s with
      | some n => Except.ok n
      | none => Except.error ("invalid literal for int() with base 10: " ++ s)

/-- The dict literal returned by `VideoRequestParams.build`, in source
order, with the two computed integer ids substituted. -/
def buildFields (p : VideoRequestParams) (teamId playerId : Int) :
    List (String × PyVal) :=
  [("LeagueID", PyVal.str "00"),
   ("Season", PyVal.str p.season),
   ("SeasonType", PyVal.str p.season_type),
   ("TeamID", PyVal.int teamId),
   ("PlayerID", PyVal.int playerId),
   ("GameID", PyVal.str p.game_id),
   ("ContextMeasure", PyVal.str p.context_measure.value),
   ("Outcome", PyVal.str ""),
   ("Location", PyVal.str ""),
   ("Month", PyVal.int 0),
   ("SeasonSegment", PyVal.str ""),
   ("DateFrom", PyVal.str ""),
   ("DateTo", PyVal.str ""),
   ("OpponentTeamID", PyVal.int 0),
   ("VsConference", PyVal.str ""),
   ("VsDivision", PyVal.str ""),
   ("Position", PyVal.str ""),
   ("RookieYear", PyVal.str ""),
   ("GameSegment", PyVal.str ""),
   ("Period", PyVal.int 0),
   ("LastNGames", PyVal.int 0),
   ("ClutchTime", PyVal.str ""),
   ("AheadBehind", PyVal.str ""),
   ("PointDiff", PyVal.str ""),
   ("RangeType", PyVal.int 0),
   ("StartPeriod", PyVal.int 0),
   ("EndPeriod", PyVal.int 0),
   ("StartRange", PyVal.int 0),
   ("EndRange", PyVal.int 28800),
   ("ContextFilter", PyVal.str ""),
   ("OppPlayerID", PyVal.str "")]

/-- `VideoRequestParams.build()`: evaluates the two id conversions in the
dict literal's order (`TeamID` first) and returns the full mapping. -/
def VideoRequestParams.build (p : VideoRequestParams) :
    Except String (List (String × PyVal)) := do
  let teamId ← idToInt p.team_id
  let playerId ← idToInt p.player_id
  pure (buildFields p teamId playerId)

theorem build_ok_inv (p : VideoRequestParams) (l : List (String × PyVal))
    (h : p.build = Except.ok l) :
    ∃ t pl, idToInt p.team_id = Except.ok t ∧ idToInt p.player_id = Except.ok pl ∧
      l = buildFields p t pl := by
  cases ht : idToInt p.team_id with
  | error e =>
    simp [VideoRequestParams.build, ht, Bind.bind, Except.bind, Functor.map, Except.map] at h
  | ok t =>
    cases hp : idToInt p.player_id with
    | error e =>
      simp [VideoRequestParams.build, ht, hp, Bind.bind, Except.bind, Functor.map,
        Except.map] at h
    | ok pl =>
      refine ⟨t, pl, rfl, rfl, ?_⟩
      simp [VideoRequestParams.build, ht, hp, Bind.bind, Except.bind, Functor.map,
        Except.map, pure, Except.pure] at h
      exact h.symm

/-! ### `VideoRequestConfig` and `__post_init__` -/

/-- The runtime value supplied as `CACHE_DURATION`: either an actual
`timedelta` (held as its whole-second count — the source default is
`timedelta(seconds=3600)`) or a value of some other Python type,
remembered only by a description string. -/
inductive DurationArg where
  | td (seconds : Int)
  | notTimedelta (descr : String)
deriving DecidableEq, Repr

/-- The `VideoRequestConfig` dataclass after `__post_init__` has run:
`BASE_URL`, cache directory path, cache duration in whole seconds, and
the fallback CDN URL mapping. -/
structure VideoRequestConfig where
  BASE_URL : String := "https://stats.nba.com/stats"
  CACHE_PATH : String
  CACHE_DURATION : Int := 3600
  FALLBACK_URLS : List (String × String) :=
    [("https://cdn.nba.com/static/json",
      "https://nba-prod-us-east-1-mediaops-stats.s3.amazonaws.com/NBA")]
deriving DecidableEq, Repr

/-- `VideoRequestConfig.__post_init__`: first `CACHE_PATH.mkdir(parents=True,
exist_ok=True)` (modelled on an explicit directory set, idempotent), then
raise `ValueError` unless `CACHE_DURATION` is a `timedelta` instance.  The
directory creation happens before the type check, so it occurs on both
outcomes. -/
def postInitConfig (cachePath : String) (dur : DurationArg) (dirs : List String) :
    Except String VideoRequestConfig × List String :=
  let dirs' := if cachePath ∈ dirs then dirs else cachePath :: dirs
  match dur with
  | DurationArg.td s => (Except.ok { CACHE_PATH := cachePath, CACHE_DURATION := s }, dirs')
  | DurationArg.notTimedelta _ =>
      (Except.error "CACHE_DURATION must be a timedelta instance", dirs')

/-! ### `VideoFetcher.get_game_videos_raw` -/

/-- The fixed endpoint `VideoFetcher.VIDEO_STATS_URL`. -/
def VIDEO_STATS_URL : String := "https://stats.nba.com/stats/videodetailsasset"

/-- The Python expression `str(x) if x else None` on an `Optional[int]`:
`None` and `0` are falsy and give `None`; any other integer is rendered
in decimal. -/
def strOfOptId : Option Int → Option String
  | none => none
  | some n => if n = 0 then none else some (pyStrOfInt n)

/-- Python `filter(None, parts)` on a list of `Optional[str]` values:
keeps exactly the truthy elements, i.e. drops `None` and `""`. -/
def pyFilterStr (l : List (Option String)) : List String :=
  l.filterMap fun x =>
    match x with
    | none => none
    | some s => if s = "" then none else some s

/-- The `cache_config` dict: key, file path, `interval` (whole seconds of
`CACHE_DURATION`), and `force_update`. -/
structure CacheConfig where
  key : String
  file : String
  interval : Int
  force_update : Bool
deriving DecidableEq, Repr

/-- One invocation of `self.fetch_data(url=..., params=..., cache_config=...)`
as observed by the transport collaborator. -/
structure FetchCall where
  url : String
  params : List (String × PyVal)
  cacheConfig : CacheConfig
deriving DecidableEq, Repr

/-- The body of `get_game_videos_raw` (the code inside `try:`), with the two
effectful collaborators passed as oracles: `mkdir` for
`cache_file.parent.mkdir(parents=True, exist_ok=True)` and `fetch` for
`self.fetch_data`.  Any `Except.error` models a raised exception. -/
def getGameVideosRawBody {α : Type} (cfg : VideoRequestConfig)
    (mkdir : String → Except String Unit) (fetch : FetchCall → Except String α)
    (game_id : String) (context_measure : ContextMeasure)
    (player_id team_id : Option Int) : Except String α := do
  let params ← VideoRequestParams.build
    { game_id := game_id, player_id := strOfOptId player_id,
      team_id := strOfOptId team_id, context_measure := context_measure }
  let cache_key_parts := pyFilterStr
    [some "video", some game_id, strOfOptId player_id, strOfOptId team_id,
     some context_measure.value]
  let cache_file := cfg.CACHE_PATH ++ "/videos_url.json"
  let _ ← mkdir cfg.CACHE_PATH
  fetch
    { url := VIDEO_STATS_URL, params := params,
      cacheConfig :=
        { key := String.intercalate "_" cache_key_parts, file := cache_file,
          interval := cfg.CACHE_DURATION, force_update := false } }

/-- The message passed to `self.logger.error` in the `except` branch. -/
def errorLog (e : String) : String := "获取视频数据失败: " ++ e

/-- `get_game_videos_raw` itself: the `try`/`except Exception` wrapper.
The result pairs the returned value (`none` models Python `None`) with
the list of log lines emitted; the `Option` return type is the formal
statement that the caller never observes an exception. -/
def getGameVideosRaw {α : Type} (cfg : VideoRequestConfig)
    (mkdir : String → Except String Unit) (fetch : FetchCall → Except String α)
    (game_id : String) (context_measure : ContextMeasure)
    (player_id team_id : Option Int) : Option α × List String :=
  match getGameVideosRawBody cfg mkdir fetch game_id context_measure player_id team_id with
  | Except.ok v => (some v, [])
  | Except.error e => (none, [errorLog e])

theorem idToInt_strOfOptId (o : Option Int) :
    idToInt (strOfOptId o) = Except.ok (o.getD 0) := by
  cases o with
  | none => rfl
  | some n =>
    by_cases h : n = 0
    · simp [strOfOptId, h, idToInt]
    · simp only [strOfOptId, h, if_neg, Option.getD_some]
      simp [idToInt, pyStrOfInt_ne_empty n, pyIntOfString_pyStrOfInt n]

/-- The unique `FetchCall` emitted by a successful pass through the body. -/
def theCall (cfg : VideoRequestConfig) (game_id : String)
    (context_measure : ContextMeasure) (player_id team_id : Option Int) : FetchCall :=
  { url := VIDEO_STATS_URL,
    params := buildFields
      { game_id := game_id, player_id := strOfOptId player_id,
        team_id := strOfOptId team_id, context_measure := context_measure }
      (team_id.getD 0) (player_id.getD 0),
    cacheConfig :=
      { key := String.intercalate "_" (pyFilterStr
          [some "video", some game_id, strOfOptId player_id, strOfOptId team_id,
           some context_measure.value]),
        file := cfg.CACHE_PATH ++ "/videos_url.json",
        interval := cfg.CACHE_DURATION, force_update := false } }

theorem body_eq_fetch_theCall {α : Type} (cfg : VideoRequestConfig)
    (mkdir : String → Except String Unit) (fetch : FetchCall → Except String α)
    (game_id : String) (cm : ContextMeasure) (player_id team_id : Option Int)
    (hmk : mkdir cfg.CACHE_PATH = Except.ok ()) :
    getGameVideosRawBody cfg mkdir fetch game_id cm player_id team_id =
      fetch (theCall cfg game_id cm player_id team_id) := by
  simp [getGameVideosRawBody, VideoRequestParams.build, idToInt_strOfOptId,
    Bind.bind, Except.bind, pure, Except.pure, hmk, theCall]

/-! ### Caching collaborators

The transport's cache behaviour and `functools.lru_cache` are not part of
`src/`; they are modelled from the spec below. -/

/-- Look an entry up in the file-cache association list. -/
def findCache {α : Type} : List (String × Int × α) → String → Option (Int × α)
  | [], _ => none
  | (k, e) :: rest, key => if k = key then some e else findCache rest key

/-- Write or refresh an entry in the file-cache association list. -/
def setCache {α : Type} : List (String × Int × α) → String → Int × α → List (String × Int × α)
  | [], key, e => [(key, e)]
  | (k, e0) :: rest, key, e =>
    if k = key then (key, e) :: rest else (k, e0) :: setCache rest key e

/-- The world outside the fetcher: a clock (seconds), the on-disk cache
file contents (key to timestamp and payload), the network's behaviour,
and a counter of network requests performed. -/
structure World (α : Type) where
  now : Int
  fileCache : List (String × Int × α)
  network : FetchCall → Except String α
  fetchCount : Nat

/-- Modelled from the spec: on a cache miss the transport performs the
network call, counts it, and on success writes the entry under the key. -/
def transportMiss {α : Type} (w : World α) (call : FetchCall) : Except String α × World α :=
  match w.network call with
  | Except.ok v =>
      (Except.ok v,
       { w with fileCache := setCache w.fileCache call.cacheConfig.key (w.now, v),
                fetchCount := w.fetchCount + 1 })
  | Except.error e => (Except.error e, { w with fetchCount := w.fetchCount + 1 })

/-- Modelled from the spec: the transport collaborator behind `fetch_data`
returns the cached decoded body when an entry for the key exists in the
file and its age is within `interval` (and no forced update); otherwise
it performs the network call and updates the file. -/
def transportFetch {α : Type} (w : World α) (call : FetchCall) : Except String α × World α :=
  match findCache w.fileCache call.cacheConfig.key with
  | some (ts, v) =>
      if call.cacheConfig.force_update = false ∧ w.now - ts ≤ call.cacheConfig.interval then
        (Except.ok v, w)
      else transportMiss w call
  | none => transportMiss w call

/-- The argument tuple of `get_game_videos_raw`, the memo key. -/
structure Args where
  game_id : String
  context_measure : ContextMeasure
  player_id : Option Int
  team_id : Option Int
deriving DecidableEq, Repr

/-- One un-memoized call of `get_game_videos_raw` against a world: the
embedded body produces the fetch call, the transport runs it, and the
`except` branch turns any error into `none` while keeping the world's
state changes. -/
def fetchThrough {α : Type} (cfg : VideoRequestConfig) (w : World α) (a : Args) :
    Option α × World α :=
  match getGameVideosRawBody cfg (fun _ => Except.ok ()) (fun c => Except.ok c)
      a.game_id a.context_measure a.player_id a.team_id with
  | Except.ok call =>
      match transportFetch w call with
      | (Except.ok v, w2) => (some v, w2)
      | (Except.error _, w2) => (none, w2)
  | Except.error _ => (none, w)

/-- Modelled from the spec: the `functools.lru_cache(maxsize=100)` state,
entries most-recently-used first. -/
structure Memo (α : Type) where
  entries : List (Args × Option α)

/-- First-match lookup in the memo's entry list. -/
def findEntry {α : Type} : List (Args × Option α) → Args → Option (Option α)
  | [], _ => none
  | (k, v) :: rest, a => if k = a then some v else findEntry rest a

/-- Remove the (first) entry for a key from the memo's entry list. -/
def removeEntry {α : Type} : List (Args × Option α) → Args → List (Args × Option α)
  | [], _ => []
  | (k, v) :: rest, a => if k = a then rest else (k, v) :: removeEntry rest a

/-- Modelled from the spec: on a hit the entry moves to the front
(most recently used). -/
def Memo.hit {α : Type} (m : Memo α) (a : Args) (v : Option α) : Memo α :=
  ⟨(a, v) :: removeEntry m.entries a⟩

/-- Modelled from the spec: a new entry goes to the front; the least
recently used entry is evicted when the capacity of 100 is reached. -/
def Memo.insertNew {α : Type} (m : Memo α) (a : Args) (v : Option α) : Memo α :=
  ⟨(a, v) :: m.entries.take 99⟩

/-- Modelled from the spec: one call of the memoized `get_game_videos_raw`
— return the memoized value on a hit (no world interaction at all);
otherwise run the fetch and memoize the result, `None` included. -/
def callCached {α : Type} (cfg : VideoRequestConfig) (m : Memo α) (w : World α)
    (a : Args) : Option α × Memo α × World α :=
  match findEntry m.entries a with
  | some v => (v, Memo.hit m a v, w)
  | none =>
      match fetchThrough cfg w a with
      | (r, w2) => (r, Memo.insertNew m a r, w2)

/-! ### Helper definitions for the claim statements -/

/-- Python dict lookup (by key) on the built parameter mapping. -/
def lookupField (key : String) : List (String × PyVal) → Option PyVal
  | [] => none
  | (k, v) :: rest => if k = key then some v else lookupField key rest

theorem value_ne_empty (cm : ContextMeasure) : cm.value ≠ "" := by
  cases cm <;> decide

/-- The parameter keys of the built mapping, as the spec enumerates them
(spec-side list for comparison; the code emits 31 of them). -/
def specParamKeys : List String :=
  ["LeagueID", "Season", "SeasonType", "TeamID", "PlayerID", "GameID",
   "ContextMeasure", "Outcome", "Location", "Month", "SeasonSegment",
   "DateFrom", "DateTo", "OpponentTeamID", "VsConference", "VsDivision",
   "Position", "RookieYear", "GameSegment", "Period", "LastNGames",
   "ClutchTime", "AheadBehind", "PointDiff", "RangeType", "StartPeriod",
   "EndPeriod", "StartRange", "EndRange", "ContextFilter", "OppPlayerID"]

/-- The keys whose values are integers in the built mapping. -/
def specIntParamKeys : List String :=
  ["TeamID", "PlayerID", "Month", "OpponentTeamID", "Period", "LastNGames",
   "RangeType", "StartPeriod", "EndPeriod", "StartRange", "EndRange"]

/-- An example configuration with the default duration. -/
def exampleConfig : VideoRequestConfig := { CACHE_PATH := "/cache/videos" }

/-- An example params value with only `game_id` set. -/
def exampleParams : VideoRequestParams := { game_id := "0022400001" }

/-- An example params value with a player id set. -/
def examplePlayerParams : VideoRequestParams :=
  { game_id := "0022400001", player_id := some "201939" }

/-! ### C2 — key set and types of the built mapping -/

/-- C2 counterexample: the built mapping of a concrete valid `game_id` has
exactly 31 keys, not the 29 the claim states. -/
theorem build_has_31_keys_not_29 :
    ∃ l, exampleParams.build = Except.ok l ∧ l.length = 31 ∧ ¬(l.length = 29) :=
  ⟨_, rfl, rfl, by decide⟩

/-- C2 (amended): for every input whose `build()` succeeds, the built
mapping contains exactly the 31 specified keys in order, and a value is an
integer exactly for the numeric fields (string for all others). -/
theorem build_keys_and_types (p : VideoRequestParams) (l : List (String × PyVal))
    (h : p.build = Except.ok l) :
    l.map Prod.fst = specParamKeys ∧
    ∀ kv ∈ l, kv.2.isInt = specIntParamKeys.contains kv.1 := by
  obtain ⟨t, pl, -, -, rfl⟩ := build_ok_inv p l h
  refine ⟨rfl, ?_⟩
  intro kv hkv
  simp only [buildFields, List.mem_cons, List.not_mem_nil, or_false] at hkv
  rcases hkv with h' | h' | h' | h' | h' | h' | h' | h' | h' | h' | h' | h' | h' | h' | h'
    | h' | h' | h' | h' | h' | h' | h' | h' | h' | h' | h' | h' | h' | h' | h' | h' <;>
    subst h' <;> rfl

/-- C2 witness: the amended theorem applied at a concrete input. -/
theorem build_keys_and_types_witness :
    (buildFields exampleParams 0 0).map Prod.fst = specParamKeys ∧
    ∀ kv ∈ buildFields exampleParams 0 0, kv.2.isInt = specIntParamKeys.contains kv.1 :=
  build_keys_and_types exampleParams (buildFields exampleParams 0 0) rfl

/-! ### C4 — `TeamID` / `PlayerID` fields -/

theorem pyIntOfString_ne_of_empty {s : String} {n : Int}
    (h : pyIntOfString s = some n) : s ≠ "" := by
  intro h0
  rw [h0] at h
  simp [pyIntOfString, pyIntOfChars] at h

/-- C4: in every successfully built mapping, `TeamID` (resp. `PlayerID`)
is `0` when the corresponding id is `None` or `""`, and `int(id)` when the
id is a numeric string. -/
theorem build_TeamID_PlayerID (p : VideoRequestParams) (l : List (String × PyVal))
    (h : p.build = Except.ok l) :
    ((p.team_id = none ∨ p.team_id = some "") →
      lookupField "TeamID" l = some (PyVal.int 0)) ∧
    (∀ s n, p.team_id = some s → pyIntOfString s = some n →
      lookupField "TeamID" l = some (PyVal.int n)) ∧
    ((p.player_id = none ∨ p.player_id = some "") →
      lookupField "PlayerID" l = some (PyVal.int 0)) ∧
    (∀ s n, p.player_id = some s → pyIntOfString s = some n →
      lookupField "PlayerID" l = some (PyVal.int n)) := by
  obtain ⟨t, pl, ht, hp, rfl⟩ := build_ok_inv p l h
  have lookT : lookupField "TeamID" (buildFields p t pl) = some (PyVal.int t) := rfl
  have lookP : lookupField "PlayerID" (buildFields p t pl) = some (PyVal.int pl) := rfl
  refine ⟨?_, ?_, ?_, ?_⟩
  · rintro (h0 | h0) <;> rw [h0] at ht <;>
      simp [idToInt] at ht <;> rw [lookT, ht]
  · intro s n hs hn
    rw [hs] at ht
    simp [idToInt, pyIntOfString_ne_of_empty hn, hn] at ht
    rw [lookT, ht]
  · rintro (h0 | h0) <;> rw [h0] at hp <;>
      simp [idToInt] at hp <;> rw [lookP, hp]
  · intro s n hs hn
    rw [hs] at hp
    simp [idToInt, pyIntOfString_ne_of_empty hn, hn] at hp
    rw [lookP, hp]

/-- C4 witness: concrete `team_id = None`, `player_id = "201939"`. -/
theorem build_TeamID_PlayerID_witness :
    lookupField "TeamID" (buildFields examplePlayerParams 0 201939) = some (PyVal.int 0) ∧
    lookupField "PlayerID" (buildFields examplePlayerParams 0 201939) =
      some (PyVal.int 201939) :=
  ⟨(build_TeamID_PlayerID examplePlayerParams
      (buildFields examplePlayerParams 0 201939) rfl).1 (Or.inl rfl),
   (build_TeamID_PlayerID examplePlayerParams
      (buildFields examplePlayerParams 0 201939) rfl).2.2.2 "201939" 201939 rfl rfl⟩

/-! ### C5 — fixed `EndRange` / `StartRange` -/

/-- C5: in every successfully built mapping, `EndRange` is `28800` and
`StartRange` is `0`, regardless of all inputs. -/
theorem build_EndRange_StartRange (p : VideoRequestParams) (l : List (String × PyVal))
    (h : p.build = Except.ok l) :
    lookupField "EndRange" l = some (PyVal.int 28800) ∧
    lookupField "StartRange" l = some (PyVal.int 0) := by
  obtain ⟨t, pl, -, -, rfl⟩ := build_ok_inv p l h
  exact ⟨rfl, rfl⟩

/-- C5 witness: the theorem applied at a concrete input. -/
theorem build_EndRange_StartRange_witness :
    lookupField "EndRange" (buildFields exampleParams 0 0) = some (PyVal.int 28800) ∧
    lookupField "StartRange" (buildFields exampleParams 0 0) = some (PyVal.int 0) :=
  build_EndRange_StartRange exampleParams (buildFields exampleParams 0 0) rfl

/-! ### C1 — exceptions are caught, logged, and become `None` -/

/-- C1: whenever the body of `get_game_videos_raw` raises (any failure of
the `mkdir` or `fetch` collaborators, or of parameter building), the call
returns `None` together with exactly one error log line; the `Option`
return type of `getGameVideosRaw` is the statement that the caller never
observes an exception. -/
theorem getGameVideosRaw_catches_and_logs {α : Type} (cfg : VideoRequestConfig)
    (mkdir : String → Except String Unit) (fetch : FetchCall → Except String α)
    (game_id : String) (cm : ContextMeasure) (player_id team_id : Option Int)
    (e : String)
    (h : getGameVideosRawBody cfg mkdir fetch game_id cm player_id team_id =
      Except.error e) :
    getGameVideosRaw cfg mkdir fetch game_id cm player_id team_id =
      (none, [errorLog e]) := by
  simp [getGameVideosRaw, h]

/-- C1 witness: a simulated network failure at a concrete input. -/
theorem getGameVideosRaw_catches_and_logs_witness :
    getGameVideosRaw (α := Nat) exampleConfig (fun _ => Except.ok ())
      (fun _ => Except.error "ConnectionError") "0022400001" ContextMeasure.FGM
      none none = (none, [errorLog "ConnectionError"]) :=
  getGameVideosRaw_catches_and_logs exampleConfig (fun _ => Except.ok ())
    (fun _ => Except.error "ConnectionError") "0022400001" ContextMeasure.FGM
    none none "ConnectionError" rfl

/-! ### C3 — the cache key -/

/-- The cache key actually handed to the transport for given arguments
(extracted by running the body with a projecting fetch oracle). -/
def emittedKey (cfg : VideoRequestConfig) (game_id : String)
    (cm : ContextMeasure) (player_id team_id : Option Int) : Except String String :=
  (getGameVideosRawBody cfg (fun _ => Except.ok ()) (fun c => Except.ok c)
    game_id cm player_id team_id).map (fun c => c.cacheConfig.key)

/-- The cache key as the claim words it: underscore-join of the NON-NULL
parts of `["video", game_id, player_id, team_id, context_measure.value]`
(spec-side definition, for comparison with the code). -/
def specCacheKeyNonNull (game_id : String) (player_id team_id : Option Int)
    (cm : ContextMeasure) : String :=
  String.intercalate "_"
    (["video", game_id] ++ (player_id.map pyStrOfInt).toList ++
     (team_id.map pyStrOfInt).toList ++ [cm.value])

/-- The contribution of an optional id to the cache key under truthiness
filtering: dropped when absent or zero. -/
def optIdPart : Option Int → List String
  | none => []
  | some n => if n = 0 then [] else [pyStrOfInt n]

/-- The cache key as amended: underscore-join of the TRUTHY parts — `None`,
zero ids and an empty `game_id` are dropped (spec-side definition). -/
def specCacheKeyTruthy (game_id : String) (player_id team_id : Option Int)
    (cm : ContextMeasure) : String :=
  String.intercalate "_"
    (["video"] ++ (if game_id = "" then [] else [game_id]) ++
     optIdPart player_id ++ optIdPart team_id ++ [cm.value])

theorem pyFilterStr_cons_strOfOptId (o : Option Int) (rest : List (Option String)) :
    pyFilterStr (strOfOptId o :: rest) = optIdPart o ++ pyFilterStr rest := by
  cases o with
  | none => rfl
  | some n =>
    by_cases hn : n = 0
    · simp [strOfOptId, hn, optIdPart, pyFilterStr]
    · simp [strOfOptId, hn, optIdPart, pyFilterStr, pyStrOfInt_ne_empty n]

theorem pyFilterStr_key_parts (game_id : String) (player_id team_id : Option Int)
    (cm : ContextMeasure) :
    pyFilterStr [some "video", some game_id, strOfOptId player_id,
      strOfOptId team_id, some cm.value] =
    ["video"] ++ (if game_id = "" then [] else [game_id]) ++
      optIdPart player_id ++ optIdPart team_id ++ [cm.value] := by
  have h1 : pyFilterStr [some cm.value] = [cm.value] := by
    simp [pyFilterStr, value_ne_empty cm]
  have h2 : pyFilterStr (strOfOptId team_id :: [some cm.value]) =
      optIdPart team_id ++ [cm.value] := by
    rw [pyFilterStr_cons_strOfOptId, h1]
  have h3 : pyFilterStr (strOfOptId player_id :: strOfOptId team_id :: [some cm.value]) =
      optIdPart player_id ++ (optIdPart team_id ++ [cm.value]) := by
    rw [pyFilterStr_cons_strOfOptId, h2]
  by_cases hg : game_id = "" <;>
    simp [pyFilterStr, List.filterMap, hg] <;>
    simpa [pyFilterStr, List.filterMap] using h3

theorem theCall_key (cfg : VideoRequestConfig) (game_id : String)
    (cm : ContextMeasure) (player_id team_id : Option Int) :
    (theCall cfg game_id cm player_id team_id).cacheConfig.key =
      specCacheKeyTruthy game_id player_id team_id cm := by
  show String.intercalate "_" (pyFilterStr [some "video", some game_id,
    strOfOptId player_id, strOfOptId team_id, some cm.value]) = _
  rw [pyFilterStr_key_parts]
  rfl

/-- C3 counterexample: at `player_id = 0` the code's key drops the id
(truthiness), while the claim's non-null join keeps `"0"`. -/
theorem cacheKey_nonNull_counterexample :
    emittedKey exampleConfig "video1" ContextMeasure.FGM (some 0) none =
      Except.ok "video_video1_FGM" ∧
    specCacheKeyNonNull "video1" (some 0) none ContextMeasure.FGM =
      "video_video1_0_FGM" ∧
    ¬(("video_video1_FGM" : String) = "video_video1_0_FGM") :=
  ⟨rfl, rfl, by decide⟩

/-- C3 (amended): the cache key equals the underscore-join of the truthy
parts of the list (dropping `None`, ids equal to `0`, and an empty
`game_id`); in particular the two concrete examples of the claim hold. -/
theorem cacheKey_eq_truthy_join :
    (∀ (cfg : VideoRequestConfig) (game_id : String) (cm : ContextMeasure)
       (player_id team_id : Option Int),
       emittedKey cfg game_id cm player_id team_id =
         Except.ok (specCacheKeyTruthy game_id player_id team_id cm)) ∧
    emittedKey exampleConfig "video1" ContextMeasure.FGM none none =
      Except.ok "video_video1_FGM" ∧
    emittedKey exampleConfig "video1" ContextMeasure.FG3M (some 201939) none =
      Except.ok "video_video1_201939_FG3M" := by
  refine ⟨?_, rfl, rfl⟩
  intro cfg game_id cm player_id team_id
  rw [emittedKey, body_eq_fetch_theCall cfg _ _ game_id cm player_id team_id rfl]
  show Except.ok (theCall cfg game_id cm player_id team_id).cacheConfig.key = _
  rw [theCall_key]

/-! ### C9 — the fetch call's URL, params and cache policy -/

/-- C9: every successful pass through the body issues exactly one fetch,
to the fixed URL, with the built parameter mapping and the cache policy
`{key, file = CACHE_PATH/videos_url.json, interval = CACHE_DURATION,
force_update = false}`. -/
theorem fetch_call_url_params_policy {α : Type} (cfg : VideoRequestConfig)
    (mkdir : String → Except String Unit) (fetch : FetchCall → Except String α)
    (game_id : String) (cm : ContextMeasure) (player_id team_id : Option Int)
    (hmk : mkdir cfg.CACHE_PATH = Except.ok ()) :
    ∃ call : FetchCall,
      getGameVideosRawBody cfg mkdir fetch game_id cm player_id team_id =
        fetch call ∧
      call.url = "https://stats.nba.com/stats/videodetailsasset" ∧
      call.cacheConfig.file = cfg.CACHE_PATH ++ "/videos_url.json" ∧
      call.cacheConfig.interval = cfg.CACHE_DURATION ∧
      call.cacheConfig.force_update = false ∧
      call.cacheConfig.key = specCacheKeyTruthy game_id player_id team_id cm ∧
      VideoRequestParams.build
        { game_id := game_id, player_id := strOfOptId player_id,
          team_id := strOfOptId team_id, context_measure := cm } =
        Except.ok call.params := by
  refine ⟨theCall cfg game_id cm player_id team_id,
    body_eq_fetch_theCall cfg mkdir fetch game_id cm player_id team_id hmk,
    rfl, rfl, rfl, rfl, ?_, ?_⟩
  · exact theCall_key cfg game_id cm player_id team_id
  · simp [VideoRequestParams.build, idToInt_strOfOptId, Bind.bind, Except.bind,
      pure, Except.pure, theCall]

/-- C9 witness: the theorem applied at a concrete input. -/
theorem fetch_call_url_params_policy_witness :
    ∃ call : FetchCall,
      getGameVideosRawBody (α := Nat) exampleConfig (fun _ => Except.ok ())
        (fun _ => Except.ok 7) "0022400001" ContextMeasure.FG3M (some 201939) none =
        (fun _ => Except.ok 7) call ∧
      call.url = "https://stats.nba.com/stats/videodetailsasset" ∧
      call.cacheConfig.file = exampleConfig.CACHE_PATH ++ "/videos_url.json" ∧
      call.cacheConfig.interval = exampleConfig.CACHE_DURATION ∧
      call.cacheConfig.force_update = false ∧
      call.cacheConfig.key =
        specCacheKeyTruthy "0022400001" (some 201939) none ContextMeasure.FG3M ∧
      VideoRequestParams.build
        { game_id := "0022400001", player_id := strOfOptId (some 201939),
          team_id := strOfOptId none, context_measure := ContextMeasure.FG3M } =
        Except.ok call.params :=
  fetch_call_url_params_policy exampleConfig (fun _ => Except.ok ())
    (fun _ => Except.ok 7) "0022400001" ContextMeasure.FG3M (some 201939) none rfl

/-! ### C10 — id `0` behaves exactly like `None` -/

/-- C10: at the public interface, passing `player_id = 0` or `team_id = 0`
is indistinguishable from passing `None` — the whole observable result of
`get_game_videos_raw` (value, logs, and the fetch call any oracle sees)
coincides, because the code tests truthiness, not null-ness. -/
theorem zero_id_indistinguishable_from_none {α : Type} (cfg : VideoRequestConfig)
    (mkdir : String → Except String Unit) (fetch : FetchCall → Except String α)
    (game_id : String) (cm : ContextMeasure) (player_id team_id : Option Int) :
    getGameVideosRaw cfg mkdir fetch game_id cm (some 0) team_id =
      getGameVideosRaw cfg mkdir fetch game_id cm none team_id ∧
    getGameVideosRaw cfg mkdir fetch game_id cm player_id (some 0) =
      getGameVideosRaw cfg mkdir fetch game_id cm player_id none :=
  ⟨rfl, rfl⟩

/-! ### C8 — construction-time validation -/

/-- C8 counterexample: `__post_init__` accepts a NON-positive timedelta
(`timedelta(seconds=-1)`) — construction succeeds although the cache
duration is not a valid positive duration, refuting the claim as stated. -/
theorem postInit_accepts_nonpositive_duration :
    (∃ c, (postInitConfig "/cache/videos" (DurationArg.td (-1)) []).1 = Except.ok c ∧
      c.CACHE_DURATION = -1) ∧
    ¬(0 < (-1 : Int)) :=
  ⟨⟨_, rfl, rfl⟩, by decide⟩

/-- C8 (amended): construction fails exactly when `CACHE_DURATION` is not a
`timedelta` instance — positivity is NOT checked, so any timedelta (even
non-positive) is accepted — and the cache directory exists afterwards
(created if absent), on both outcomes and hence before any fetch. -/
theorem postInit_type_check_and_dir (cachePath : String) (dur : DurationArg)
    (dirs : List String) :
    ((∃ c, (postInitConfig cachePath dur dirs).1 = Except.ok c) ↔
      (∃ s, dur = DurationArg.td s)) ∧
    cachePath ∈ (postInitConfig cachePath dur dirs).2 ∧
    (∀ s, dur = DurationArg.td s →
      (postInitConfig cachePath dur dirs).1 =
        Except.ok { CACHE_PATH := cachePath, CACHE_DURATION := s }) := by
  refine ⟨⟨?_, ?_⟩, ?_, ?_⟩
  · rintro ⟨c, hc⟩
    cases dur with
    | td s => exact ⟨s, rfl⟩
    | notTimedelta d => simp [postInitConfig] at hc
  · rintro ⟨s, rfl⟩
    exact ⟨_, rfl⟩
  · show cachePath ∈ (postInitConfig cachePath dur dirs).2
    cases dur <;> · show cachePath ∈ (if cachePath ∈ dirs then dirs else cachePath :: dirs)
                    split <;> simp_all
  · rintro s rfl
    rfl

/-- C8 witness: the amended theorem applied at a concrete input. -/
theorem postInit_type_check_and_dir_witness :
    ("/cache/videos" ∈ (postInitConfig "/cache/videos" (DurationArg.td 3600) []).2) ∧
    (postInitConfig "/cache/videos" (DurationArg.td 3600) []).1 =
      Except.ok { CACHE_PATH := "/cache/videos", CACHE_DURATION := 3600 } :=
  ⟨(postInit_type_check_and_dir "/cache/videos" (DurationArg.td 3600) []).2.1,
   (postInit_type_check_and_dir "/cache/videos" (DurationArg.td 3600) []).2.2 3600 rfl⟩

/-! ### C6 — idempotence of two consecutive identical calls -/

/-- C6: two consecutive calls of the memoized `get_game_videos_raw` with
identical arguments return identical payloads and the second leaves the
world untouched — in particular no second network request is performed —
from any starting memo, file cache, clock and network. -/
theorem consecutive_identical_calls_idempotent {α : Type} (cfg : VideoRequestConfig)
    (m : Memo α) (w : World α) (a : Args) :
    (callCached cfg ((callCached cfg m w a).2.1) ((callCached cfg m w a).2.2) a).1 =
      (callCached cfg m w a).1 ∧
    (callCached cfg ((callCached cfg m w a).2.1) ((callCached cfg m w a).2.2) a).2.2 =
      (callCached cfg m w a).2.2 := by
  cases h : findEntry m.entries a with
  | some v => simp [callCached, h, Memo.hit, findEntry]
  | none =>
    cases hf : fetchThrough cfg w a with
    | mk r w2 => simp [callCached, h, hf, Memo.insertNew, findEntry]

/-! ### C7 — memo entries never expire on their own -/

/-- C7: a memoized argument tuple (not evicted) is answered from the memo
with the stale stored value — a memoized `None` included — leaving the
world (clock, file cache, network counter) completely untouched, whatever
the elapsed time; and when the memo has no entry and the file cache has no
fresh entry for the key, a fresh network call is performed. -/
theorem memo_entries_never_expire {α : Type} (cfg : VideoRequestConfig)
    (m : Memo α) (w : World α) (a : Args) :
    (∀ v, findEntry m.entries a = some v →
      callCached cfg m w a = (v, Memo.hit m a v, w)) ∧
    (findEntry m.entries a = none →
      (∀ ts v0, findCache w.fileCache
          (theCall cfg a.game_id a.context_measure a.player_id a.team_id).cacheConfig.key =
          some (ts, v0) →
        w.now - ts >
          (theCall cfg a.game_id a.context_measure a.player_id a.team_id).cacheConfig.interval) →
      (callCached cfg m w a).2.2.fetchCount = w.fetchCount + 1) := by
  constructor
  · intro v hv
    simp [callCached, hv]
  · intro hmiss hstale
    have hbody : getGameVideosRawBody cfg (fun _ => Except.ok ())
        (fun c => Except.ok c) a.game_id a.context_measure a.player_id a.team_id =
        Except.ok (theCall cfg a.game_id a.context_measure a.player_id a.team_id) :=
      body_eq_fetch_theCall cfg _ _ a.game_id a.context_measure a.player_id a.team_id rfl
    have hcount : ∀ (w1 : World α) (call : FetchCall),
        ((transportMiss w1 call).2).fetchCount = w1.fetchCount + 1 := by
      intro w1 call
      cases hnet : w1.network call <;> simp [transportMiss, hnet]
    have htrans : ((transportFetch w
        (theCall cfg a.game_id a.context_measure a.player_id a.team_id)).2).fetchCount =
        w.fetchCount + 1 := by
      cases hfc : findCache w.fileCache
          (theCall cfg a.game_id a.context_measure a.player_id a.team_id).cacheConfig.key with
      | none => simp [transportFetch, hfc, hcount]
      | some e =>
        obtain ⟨ts, v0⟩ := e
        have hgt := hstale ts v0 hfc
        simp only [transportFetch, hfc]
        rw [if_neg (fun hc => absurd hc.2 (not_le.mpr hgt))]
        exact hcount w _
    simp only [callCached, hmiss]
    cases hf : fetchThrough cfg w a with
    | mk r w2 =>
      have : w2.fetchCount = w.fetchCount + 1 := by
        simp only [fetchThrough, hbody] at hf
        cases ht : transportFetch w
            (theCall cfg a.game_id a.context_measure a.player_id a.team_id) with
        | mk res w3 =>
          rw [ht] at hf
          have hw3 : w3.fetchCount = w.fetchCount + 1 := by
            have h4 := htrans
            rw [ht] at h4
            exact h4
          cases res with
          | ok v =>
            simp only [Prod.mk.injEq] at hf
            rw [← hf.2]
            exact hw3
          | error e =>
            simp only [Prod.mk.injEq] at hf
            rw [← hf.2]
            exact hw3
      simp [this]

/-- C7 witness: a memoized `None` is returned unchanged long after the TTL,
and with an empty memo and empty file cache one network call happens. -/
theorem memo_entries_never_expire_witness :
    callCached (α := Nat) exampleConfig ⟨[(⟨"0022400001", ContextMeasure.FGM, none, none⟩, none)]⟩
        ⟨1000000000, [], fun _ => Except.ok 7, 0⟩
        ⟨"0022400001", ContextMeasure.FGM, none, none⟩ =
      (none, Memo.hit ⟨[(⟨"0022400001", ContextMeasure.FGM, none, none⟩, none)]⟩
        ⟨"0022400001", ContextMeasure.FGM, none, none⟩ none,
       ⟨1000000000, [], fun _ => Except.ok 7, 0⟩) ∧
    (callCached (α := Nat) exampleConfig ⟨[]⟩
        ⟨1000000000, [], fun _ => Except.ok 7, 0⟩
        ⟨"0022400001", ContextMeasure.FGM, none, none⟩).2.2.fetchCount = 0 + 1 :=
  ⟨(memo_entries_never_expire exampleConfig _ _ _).1 none rfl,
   (memo_entries_never_expire exampleConfig ⟨[]⟩ _ _).2 rfl
     (by intro ts v0 h; simp [findCache] at h)⟩

end NbaVideo
